import Mathlib

/-!
# OpenGLShaderProgram (juce_opengl/opengl/juce_OpenGLShaderProgram.cpp)

A shallow embedding of the shader-program wrapper.  The wrapper is a thin layer
over the graphics driver, so the embedding has two parts:

* the *world*: the driver, taken as an arbitrary function of the history of GL
  calls made so far, together with that history (every call is recorded with its
  arguments and with the answer the driver gave);
* the wrapper itself: `OpenGLShaderProgram` with its two mutable members
  (`programID`, `errorLog`) and one Lean function per member function, written
  in state-passing style in the order of the statements of the source.

The production configuration is modelled: `jassert`, `DBG`, `jassertfalse` and
`JUCE_CHECK_OPENGL_ERROR` expand to nothing.  The expression checked by the
`jassert` of `use()` is kept as the separate definition `use_jassert`.

Of the `setUniform` family the two overloads with integer arguments are
embedded; the overloads with floating-point arguments and the `Uniform::set`
family make one `glUniform*` call each in the same way and touch no member.
-/

namespace juce

/-! ## GL types -/

/-- The GL enumerators the wrapper passes to the driver. -/
inductive GLenum where
  | GL_VERTEX_SHADER
  | GL_FRAGMENT_SHADER
  | GL_COMPILE_STATUS
  | GL_LINK_STATUS
  | GL_SHADING_LANGUAGE_VERSION
  deriving DecidableEq, Repr

/-- Object names handed out by the driver (32-bit unsigned; no arithmetic is done on them). -/
abbrev GLuint := Nat

/-- Signed driver integers (status words, locations). -/
abbrev GLint := Int

/-- One GL call as seen by the driver: the entry point, its arguments, and, for
entry points that answer, the answer. -/
inductive GLCall where
  | glCreateProgram (ret : GLuint)
  | glDeleteProgram (program : GLuint)
  | glGetString (name : GLenum) (ret : String)
  | glCreateShader (type : GLenum) (ret : GLuint)
  | glShaderSource (shader : GLuint) (code : String)
  | glCompileShader (shader : GLuint)
  | glGetShaderiv (shader : GLuint) (pname : GLenum) (params : GLint)
  | glGetShaderInfoLog (shader : GLuint) (bufSize : Nat) (length : Nat) (infoLog : List Char)
  | glAttachShader (program : GLuint) (shader : GLuint)
  | glDeleteShader (shader : GLuint)
  | glLinkProgram (program : GLuint)
  | glGetProgramiv (program : GLuint) (pname : GLenum) (params : GLint)
  | glGetProgramInfoLog (program : GLuint) (bufSize : Nat) (length : Nat) (infoLog : List Char)
  | glUseProgram (program : GLuint)
  | glGetUniformLocation (program : GLuint) (name : String) (ret : GLint)
  | glGetAttribLocation (program : GLuint) (name : String) (ret : GLint)
  | glUniform1i (location : GLint) (v0 : GLint)
  | glUniform4i (location : GLint) (v0 v1 v2 v3 : GLint)
  deriving DecidableEq, Repr

/-- The driver: for every entry point that answers, the answer as a function of
the calls made before and of the arguments.  For the entry points with an
out-parameter the answer is the content of the out-parameter after the call:
the wrapper sets `status` and `infoLogLength` to `0` before the call, so a
driver that writes nothing answers `0`.  The info-log answer is the pair of the
reported length (a character count, never negative) and the characters in the
buffer; the wrapper reads the buffer only up to the reported length. -/
structure Driver where
  createProgram : List GLCall → GLuint
  getString : List GLCall → GLenum → String
  createShader : List GLCall → GLenum → GLuint
  getShaderiv : List GLCall → GLuint → GLenum → GLint
  getShaderInfoLog : List GLCall → GLuint → Nat → Nat × List Char
  getProgramiv : List GLCall → GLuint → GLenum → GLint
  getProgramInfoLog : List GLCall → GLuint → Nat → Nat × List Char
  getUniformLocation : List GLCall → GLuint → String → GLint
  getAttribLocation : List GLCall → GLuint → String → GLint

/-- The driver together with the calls it has received so far, oldest first. -/
structure World where
  driver : Driver
  calls : List GLCall

/-- Record one call. -/
def World.emit (w : World) (c : GLCall) : World :=
  { w with calls := w.calls ++ [c] }

/-! ## The GL entry points used by the wrapper -/

def glCreateProgram (w : World) : GLuint × World :=
  let r := w.driver.createProgram w.calls
  (r, w.emit (.glCreateProgram r))

def glDeleteProgram (w : World) (program : GLuint) : World :=
  w.emit (.glDeleteProgram program)

def glGetString (w : World) (name : GLenum) : String × World :=
  let r := w.driver.getString w.calls name
  (r, w.emit (.glGetString name r))

def glCreateShader (w : World) (type : GLenum) : GLuint × World :=
  let r := w.driver.createShader w.calls type
  (r, w.emit (.glCreateShader type r))

def glShaderSource (w : World) (shader : GLuint) (code : String) : World :=
  w.emit (.glShaderSource shader code)

def glCompileShader (w : World) (shader : GLuint) : World :=
  w.emit (.glCompileShader shader)

def glGetShaderiv (w : World) (shader : GLuint) (pname : GLenum) : GLint × World :=
  let r := w.driver.getShaderiv w.calls shader pname
  (r, w.emit (.glGetShaderiv shader pname r))

def glGetShaderInfoLog (w : World) (shader : GLuint) (bufSize : Nat) :
    (Nat × List Char) × World :=
  let r := w.driver.getShaderInfoLog w.calls shader bufSize
  (r, w.emit (.glGetShaderInfoLog shader bufSize r.1 r.2))

def glAttachShader (w : World) (program shader : GLuint) : World :=
  w.emit (.glAttachShader program shader)

def glDeleteShader (w : World) (shader : GLuint) : World :=
  w.emit (.glDeleteShader shader)

def glLinkProgram (w : World) (program : GLuint) : World :=
  w.emit (.glLinkProgram program)

def glGetProgramiv (w : World) (program : GLuint) (pname : GLenum) : GLint × World :=
  let r := w.driver.getProgramiv w.calls program pname
  (r, w.emit (.glGetProgramiv program pname r))

def glGetProgramInfoLog (w : World) (program : GLuint) (bufSize : Nat) :
    (Nat × List Char) × World :=
  let r := w.driver.getProgramInfoLog w.calls program bufSize
  (r, w.emit (.glGetProgramInfoLog program bufSize r.1 r.2))

def glUseProgram (w : World) (program : GLuint) : World :=
  w.emit (.glUseProgram program)

def glGetUniformLocation (w : World) (program : GLuint) (name : String) : GLint × World :=
  let r := w.driver.getUniformLocation w.calls program name
  (r, w.emit (.glGetUniformLocation program name r))

def glGetAttribLocation (w : World) (program : GLuint) (name : String) : GLint × World :=
  let r := w.driver.getAttribLocation w.calls program name
  (r, w.emit (.glGetAttribLocation program name r))

def glUniform1i (w : World) (location v0 : GLint) : World :=
  w.emit (.glUniform1i location v0)

def glUniform4i (w : World) (location v0 v1 v2 v3 : GLint) : World :=
  w.emit (.glUniform4i location v0 v1 v2 v3)

/-! ## The wrapper -/

/-- The owning context; the wrapper only stores the reference. -/
structure OpenGLContext where
  id : Nat
  deriving DecidableEq, Repr

/-- The data members of `OpenGLShaderProgram`. -/
structure OpenGLShaderProgram where
  context : OpenGLContext
  programID : GLuint
  errorLog : String
  deriving DecidableEq, Repr

/-- Modelled from the spec: the `String (const char*, size_t)` constructor of the
toolkit's string class, which is not part of the excerpt; it takes the first
`maxChars` characters of the buffer. -/
def String_fromBuffer (text : List Char) (maxChars : Nat) : String :=
  String.mk (text.take maxChars)

/-- Modelled from the spec: `String::retainCharacters`, which is not part of the
excerpt; it keeps, in their order, the characters that occur in `charactersToRetain`
and drops every other character. -/
def String_retainCharacters (s : String) (charactersToRetain : String) : String :=
  String.mk (s.toList.filter (fun ch => decide (ch ∈ charactersToRetain.toList)))

/-- Reads a run of decimal digits as a natural number, most significant digit
first; `none` when a character is not a digit. -/
def readDigits (acc : Nat) : List Char → Option Nat
  | [] => some acc
  | ch :: rest => if ch.isDigit then readDigits (acc * 10 + (ch.toNat - 48)) rest else none

/-- Modelled from the spec: the decimal reading behind `String::getDoubleValue`,
which is not part of the excerpt.  A text is parsable when it is a run of digits,
optionally with one dot in it, and has at least one digit; its value is the
number it denotes, as an exact rational. -/
def parseDecimal (t : List Char) : Option ℚ :=
  let intPart := t.takeWhile (fun ch => ch != '.')
  match t.dropWhile (fun ch => ch != '.') with
  | [] =>
      if intPart = [] then none
      else (readDigits 0 intPart).map (fun i => (i : ℚ))
  | _ :: fracPart =>
      if intPart = [] ∧ fracPart = [] then none
      else
        match readDigits 0 intPart, readDigits 0 fracPart with
        | some i, some f => some ((i : ℚ) + (f : ℚ) / 10 ^ fracPart.length)
        | _, _ => none

/-- Modelled from the spec: `String::getDoubleValue`, which is not part of the
excerpt; the value of the text, `0.0` when the text is empty or unparsable.  The
double is represented by the rational it is read from. -/
def String_getDoubleValue (s : String) : ℚ :=
  (parseDecimal s.toList).getD 0

/-- The size of the local `GLchar infoLog [16384]` buffers. -/
def sizeof_infoLog : Nat := 16384

namespace OpenGLShaderProgram

/-- The constructor: `context (c), programID (0)`, and a default-constructed `errorLog`. -/
def new (c : OpenGLContext) : OpenGLShaderProgram :=
  { context := c, programID := 0, errorLog := "" }

/-- Lazily creates the program object. -/
def getProgramID (self : OpenGLShaderProgram) (w : World) :
    GLuint × OpenGLShaderProgram × World :=
  if self.programID = 0 then
    let (r, w1) := glCreateProgram w
    (r, { self with programID := r }, w1)
  else
    (self.programID, self, w)

def release (self : OpenGLShaderProgram) (w : World) : OpenGLShaderProgram × World :=
  if self.programID ≠ 0 then
    let w1 := glDeleteProgram w self.programID
    ({ self with programID := 0 }, w1)
  else
    (self, w)

/-- The destructor calls `release()`. -/
def destroy (self : OpenGLShaderProgram) (w : World) : OpenGLShaderProgram × World :=
  release self w

def addShader (self : OpenGLShaderProgram) (w : World) (code : String) (type : GLenum) :
    Bool × OpenGLShaderProgram × World :=
  let (shaderID, w1) := glCreateShader w type
  let w2 := glShaderSource w1 shaderID code
  let w3 := glCompileShader w2 shaderID
  let (status, w4) := glGetShaderiv w3 shaderID .GL_COMPILE_STATUS
  if status = 0 then
    let ((infoLogLength, infoLog), w5) := glGetShaderInfoLog w4 shaderID sizeof_infoLog
    (false, { self with errorLog := String_fromBuffer infoLog infoLogLength }, w5)
  else
    let (progID, self1, w5) := getProgramID self w4
    let w6 := glAttachShader w5 progID shaderID
    let w7 := glDeleteShader w6 shaderID
    (true, self1, w7)

def addVertexShader (self : OpenGLShaderProgram) (w : World) (code : String) :
    Bool × OpenGLShaderProgram × World :=
  addShader self w code .GL_VERTEX_SHADER

def addFragmentShader (self : OpenGLShaderProgram) (w : World) (code : String) :
    Bool × OpenGLShaderProgram × World :=
  addShader self w code .GL_FRAGMENT_SHADER

def link (self : OpenGLShaderProgram) (w : World) : Bool × OpenGLShaderProgram × World :=
  let (progID, self1, w1) := getProgramID self w
  let w2 := glLinkProgram w1 progID
  let (status, w3) := glGetProgramiv w2 progID .GL_LINK_STATUS
  if status = 0 then
    let ((infoLogLength, infoLog), w4) := glGetProgramInfoLog w3 progID sizeof_infoLog
    (false, { self1 with errorLog := String_fromBuffer infoLog infoLogLength }, w4)
  else
    (true, self1, w3)

/-- The expression checked by the `jassert` at the top of `use()`. -/
def use_jassert (self : OpenGLShaderProgram) : Bool :=
  self.programID != 0

def use (self : OpenGLShaderProgram) (w : World) : World :=
  glUseProgram w self.programID

def getUniformIDFromName (self : OpenGLShaderProgram) (w : World) (uniformName : String) :
    GLint × World :=
  glGetUniformLocation w self.programID uniformName

/-- The overload `setUniform (const char*, GLint)`. -/
def setUniform1i (self : OpenGLShaderProgram) (w : World) (name : String) (n1 : GLint) : World :=
  let (loc, w1) := getUniformIDFromName self w name
  glUniform1i w1 loc n1

/-- The overload `setUniform (const char*, GLint, GLint, GLint, GLint)`. -/
def setUniform4i (self : OpenGLShaderProgram) (w : World) (name : String)
    (n1 n2 n3 n4 : GLint) : World :=
  let (loc, w1) := getUniformIDFromName self w name
  glUniform4i w1 loc n1 n2 n3 n4

/-- The data member of `OpenGLShaderProgram::Attribute`. -/
structure Attribute where
  attributeID : GLuint
  deriving DecidableEq, Repr

/-- The constructor of `Attribute`; `(GLuint)` is the conversion to 32-bit unsigned. -/
def Attribute.new (program : OpenGLShaderProgram) (w : World) (name : String) :
    Attribute × OpenGLShaderProgram × World :=
  let (progID, program1, w1) := getProgramID program w
  let (loc, w2) := glGetAttribLocation w1 progID name
  ({ attributeID := (loc % 4294967296).toNat }, program1, w2)

/-- The data members of `OpenGLShaderProgram::Uniform`. -/
structure Uniform where
  uniformID : GLint
  context : OpenGLContext
  deriving DecidableEq, Repr

/-- The constructor of `Uniform`. -/
def Uniform.new (program : OpenGLShaderProgram) (w : World) (name : String) :
    Uniform × OpenGLShaderProgram × World :=
  let (progID, program1, w1) := getProgramID program w
  let (loc, w2) := glGetUniformLocation w1 progID name
  ({ uniformID := loc, context := program1.context }, program1, w2)

/-- The static member `getLanguageVersion`.  The driver answers `glGetString` with
the decoded text (the empty text for a null pointer), so `String::fromUTF8` does
not appear. -/
def getLanguageVersion (w : World) : ℚ × World :=
  let (version, w1) := glGetString w .GL_SHADING_LANGUAGE_VERSION
  (String_getDoubleValue (String_retainCharacters version "1234567890."), w1)

/-! ## Calling sequences -/

/-- The operations a caller can apply to one instance. -/
inductive Op where
  | getProgramID
  | addVertexShader (code : String)
  | addFragmentShader (code : String)
  | link
  | use
  | release
  | getUniformIDFromName (name : String)
  | setUniform1i (name : String) (n1 : GLint)
  | setUniform4i (name : String) (n1 n2 n3 n4 : GLint)
  | newAttribute (name : String)
  | newUniform (name : String)
  deriving DecidableEq, Repr

/-- Applies one operation; the first component is the boolean the member
function returned, for the three that return one. -/
def Op.run (op : Op) (self : OpenGLShaderProgram) (w : World) :
    Option Bool × OpenGLShaderProgram × World :=
  match op with
  | .getProgramID => (none, (self.getProgramID w).2)
  | .addVertexShader code =>
      let r := self.addVertexShader w code
      (some r.1, r.2)
  | .addFragmentShader code =>
      let r := self.addFragmentShader w code
      (some r.1, r.2)
  | .link =>
      let r := self.link w
      (some r.1, r.2)
  | .use => (none, self, self.use w)
  | .release => (none, self.release w)
  | .getUniformIDFromName name => (none, self, (self.getUniformIDFromName w name).2)
  | .setUniform1i name n1 => (none, self, self.setUniform1i w name n1)
  | .setUniform4i name n1 n2 n3 n4 => (none, self, self.setUniform4i w name n1 n2 n3 n4)
  | .newAttribute name => (none, (Attribute.new self w name).2)
  | .newUniform name => (none, (Uniform.new self w name).2)

/-- Applies a sequence of operations, first to last. -/
def runOps : List Op → OpenGLShaderProgram → World → OpenGLShaderProgram × World
  | [], self, w => (self, w)
  | op :: ops, self, w => runOps ops (op.run self w).2.1 (op.run self w).2.2

/-- The build sequence `addVertexShader; addFragmentShader; link`, with the three
return values. -/
def build (self : OpenGLShaderProgram) (w : World) (vertexCode fragmentCode : String) :
    (Bool × Bool × Bool) × OpenGLShaderProgram × World :=
  let a := addVertexShader self w vertexCode
  let b := addFragmentShader a.2.1 a.2.2 fragmentCode
  let c := link b.2.1 b.2.2
  ((a.1, b.1, c.1), c.2)

/-- The steps of the build sequence, each with its return value and the state
and world after it. -/
def buildSteps (self : OpenGLShaderProgram) (w : World) (vertexCode fragmentCode : String) :
    List (Bool × OpenGLShaderProgram × World) :=
  let a := addVertexShader self w vertexCode
  let b := addFragmentShader a.2.1 a.2.2 fragmentCode
  let c := link b.2.1 b.2.2
  [a, b, c]

/-- A whole life of one instance on context `c`: construction, the operations,
then the destructor. -/
def lifetime (c : OpenGLContext) (w0 : World) (ops : List Op) : OpenGLShaderProgram × World :=
  destroy (runOps ops (new c) w0).1 (runOps ops (new c) w0).2

end OpenGLShaderProgram

/-! ## Observations on the call history -/

/-- The calls made after the moment `w0`. -/
def World.since (w w0 : World) : List GLCall :=
  w.calls.drop w0.calls.length

/-- The compile status reported by a call, when the call is the `GL_COMPILE_STATUS` query. -/
def GLCall.compileStatus : GLCall → Option GLint
  | .glGetShaderiv _ .GL_COMPILE_STATUS st => some st
  | _ => none

/-- The link status reported by a call, when the call is the `GL_LINK_STATUS` query. -/
def GLCall.linkStatus : GLCall → Option GLint
  | .glGetProgramiv _ .GL_LINK_STATUS st => some st
  | _ => none

/-- The compile statuses the driver reported in a list of calls. -/
def compileStatuses (calls : List GLCall) : List GLint :=
  calls.filterMap GLCall.compileStatus

/-- The link statuses the driver reported in a list of calls. -/
def linkStatuses (calls : List GLCall) : List GLint :=
  calls.filterMap GLCall.linkStatus

/-- Whether the call is `glAttachShader`. -/
def GLCall.isAttachShader : GLCall → Bool
  | .glAttachShader _ _ => true
  | _ => false

/-- Whether the call is `glDeleteProgram`. -/
def GLCall.isDeleteProgram : GLCall → Bool
  | .glDeleteProgram _ => true
  | _ => false

/-- Whether the call is `glCreateProgram`. -/
def GLCall.isCreateProgram : GLCall → Bool
  | .glCreateProgram _ => true
  | _ => false

/-- Follows the program handles through one call.  The state is the handle that
is live (created and not yet deleted), if any; the result is `none` when the call
breaks the discipline: a second handle is created while one is live, or a handle
that is not the live one is deleted. -/
def trackHandle (live : Option GLuint) : GLCall → Option (Option GLuint)
  | .glCreateProgram r =>
      if r = 0 then some live
      else match live with
        | none => some (some r)
        | some _ => none
  | .glDeleteProgram p => if live = some p then some none else none
  | _ => some live

/-- Follows the program handles through a list of calls, oldest first. -/
def trackHandles : Option GLuint → List GLCall → Option (Option GLuint)
  | live, [] => some live
  | live, c :: rest =>
      match trackHandle live c with
      | none => none
      | some live1 => trackHandles live1 rest

/-- The driver does not report a status for the null program name: with
`program = 0` the query is an error and leaves the out-parameter at `0`. -/
def Driver.rejectsNullProgram (d : Driver) : Prop :=
  ∀ (calls : List GLCall) (pname : GLenum), d.getProgramiv calls 0 pname = 0

/-- The driver answers from `w1` on as it answers from `w2` on: after the same
further calls, every entry point gives the same answer in both. -/
def SameAnswers (w1 w2 : World) : Prop :=
  ∀ t : List GLCall,
    w1.driver.createProgram (w1.calls ++ t) = w2.driver.createProgram (w2.calls ++ t)
    ∧ w1.driver.getString (w1.calls ++ t) = w2.driver.getString (w2.calls ++ t)
    ∧ w1.driver.createShader (w1.calls ++ t) = w2.driver.createShader (w2.calls ++ t)
    ∧ w1.driver.getShaderiv (w1.calls ++ t) = w2.driver.getShaderiv (w2.calls ++ t)
    ∧ w1.driver.getShaderInfoLog (w1.calls ++ t) = w2.driver.getShaderInfoLog (w2.calls ++ t)
    ∧ w1.driver.getProgramiv (w1.calls ++ t) = w2.driver.getProgramiv (w2.calls ++ t)
    ∧ w1.driver.getProgramInfoLog (w1.calls ++ t) = w2.driver.getProgramInfoLog (w2.calls ++ t)
    ∧ w1.driver.getUniformLocation (w1.calls ++ t) = w2.driver.getUniformLocation (w2.calls ++ t)
    ∧ w1.driver.getAttribLocation (w1.calls ++ t) = w2.driver.getAttribLocation (w2.calls ++ t)

/-- The handle the instance holds, if it holds one. -/
def liveHandle (self : OpenGLShaderProgram) : Option GLuint :=
  if self.programID = 0 then none else some self.programID

/-- How often the handle `h` is live in `live` (0 or 1). -/
def liveCount (live : Option GLuint) (h : GLuint) : Nat :=
  if live = some h then 1 else 0

/-- The step from `(self, w)` to `(self1, w1)` extends the history, and the
calls it adds carry the live handle of the instance before to the live handle of
the instance after without breaking the handle discipline. -/
def Follows (self : OpenGLShaderProgram) (w : World) (self1 : OpenGLShaderProgram) (w1 : World) :
    Prop :=
  ∃ t, w1.calls = w.calls ++ t ∧ trackHandles (liveHandle self) t = some (liveHandle self1)

/-! ## Sample drivers -/

/-- A driver for which everything succeeds: fresh non-zero names, compile and
link status `1` (no status for the null program name), empty info logs. -/
def okDriver : Driver where
  createProgram := fun calls => calls.length + 1
  getString := fun _ _ => "OpenGL GLSL 4.50 core"
  createShader := fun calls _ => calls.length + 1
  getShaderiv := fun _ _ _ => 1
  getShaderInfoLog := fun _ _ _ => (0, [])
  getProgramiv := fun _ program _ => if program = 0 then 0 else 1
  getProgramInfoLog := fun _ _ _ => (0, [])
  getUniformLocation := fun _ _ _ => 0
  getAttribLocation := fun _ _ _ => 0

/-- A driver that rejects every shader and every program, with a diagnostic. -/
def failingDriver : Driver where
  createProgram := fun calls => calls.length + 1
  getString := fun _ _ => ""
  createShader := fun calls _ => calls.length + 1
  getShaderiv := fun _ _ _ => 0
  getShaderInfoLog := fun _ _ _ => (10, "ERROR: 0:1 syntax error".toList)
  getProgramiv := fun _ _ _ => 0
  getProgramInfoLog := fun _ _ _ => (11, "link failed: no shaders".toList)
  getUniformLocation := fun _ _ _ => -1
  getAttribLocation := fun _ _ _ => -1

/-- A driver that rejects every shader and leaves its info log empty. -/
def silentDriver : Driver where
  createProgram := fun calls => calls.length + 1
  getString := fun _ _ => ""
  createShader := fun calls _ => calls.length + 1
  getShaderiv := fun _ _ _ => 0
  getShaderInfoLog := fun _ _ _ => (0, [])
  getProgramiv := fun _ _ _ => 0
  getProgramInfoLog := fun _ _ _ => (0, [])
  getUniformLocation := fun _ _ _ => -1
  getAttribLocation := fun _ _ _ => -1

/-- A driver that rejects the first shader it is given, with a diagnostic, and
accepts everything after it. -/
def flakyDriver : Driver where
  createProgram := fun calls => calls.length + 1
  getString := fun _ _ => ""
  createShader := fun calls _ => calls.length + 1
  getShaderiv := fun calls _ _ => if calls.length < 4 then 0 else 1
  getShaderInfoLog := fun _ _ _ => (10, "ERROR: 0:1 syntax error".toList)
  getProgramiv := fun _ program _ => if program = 0 then 0 else 1
  getProgramInfoLog := fun _ _ _ => (0, [])
  getUniformLocation := fun _ _ _ => 0
  getAttribLocation := fun _ _ _ => 0

/-- A driver whose programs never link: shaders compile, the link status is `0`
and the program info log carries a diagnostic. -/
def unlinkableDriver : Driver where
  createProgram := fun calls => calls.length + 1
  getString := fun _ _ => ""
  createShader := fun calls _ => calls.length + 1
  getShaderiv := fun _ _ _ => 1
  getShaderInfoLog := fun _ _ _ => (0, [])
  getProgramiv := fun _ _ _ => 0
  getProgramInfoLog := fun _ _ _ => (11, "link failed: no main".toList)
  getUniformLocation := fun _ _ _ => -1
  getAttribLocation := fun _ _ _ => -1

/-- The driver that answers, after the calls `t`, as `d` answers after `h ++ t`. -/
def Driver.after (d : Driver) (h : List GLCall) : Driver where
  createProgram := fun t => d.createProgram (h ++ t)
  getString := fun t => d.getString (h ++ t)
  createShader := fun t => d.createShader (h ++ t)
  getShaderiv := fun t => d.getShaderiv (h ++ t)
  getShaderInfoLog := fun t => d.getShaderInfoLog (h ++ t)
  getProgramiv := fun t => d.getProgramiv (h ++ t)
  getProgramInfoLog := fun t => d.getProgramInfoLog (h ++ t)
  getUniformLocation := fun t => d.getUniformLocation (h ++ t)
  getAttribLocation := fun t => d.getAttribLocation (h ++ t)

/-- The world in which the history so far is folded into the driver. -/
def World.restart (w : World) : World :=
  ⟨w.driver.after w.calls, []⟩

/-- The state reached by a build whose `link()` returns `false`: the build on
`unlinkableDriver`, with its three return values. -/
def failedBuild : (Bool × Bool × Bool) × OpenGLShaderProgram × World :=
  OpenGLShaderProgram.build (OpenGLShaderProgram.new ⟨0⟩) ⟨unlinkableDriver, []⟩
    "void main() \x7b\x7d" "void main() \x7b\x7d"

end juce

/-! ## Theorems -/

namespace juce
open OpenGLShaderProgram

/-! ### Lemmas on the call history and on the shape of each operation -/

theorem World.since_of_calls {w w1 : World} {t : List GLCall} (h : w1.calls = w.calls ++ t) :
    w1.since w = t := by
  simp [World.since, h]

theorem trackHandles_append (live : Option GLuint) (a b : List GLCall) :
    trackHandles live (a ++ b) = (trackHandles live a).bind (fun l => trackHandles l b) := by
  induction a generalizing live with
  | nil => simp [trackHandles]
  | cons c rest ih =>
    simp only [List.cons_append, trackHandles]
    cases h : trackHandle live c with
    | none => simp
    | some l => simp [ih]

theorem trackHandles_take (live : Option GLuint) (t : List GLCall) (n : Nat)
    (h : (trackHandles live t).isSome) : (trackHandles live (t.take n)).isSome := by
  induction t generalizing live n with
  | nil => simp [trackHandles]
  | cons c rest ih =>
    cases n with
    | zero => simp [trackHandles]
    | succ n =>
      simp only [List.take_succ_cons, trackHandles] at h ⊢
      cases hc : trackHandle live c with
      | none => simp [hc] at h
      | some l =>
        simp only [hc] at h ⊢
        exact ih l n h

theorem trackHandles_count (live live1 : Option GLuint) (t : List GLCall) (h : GLuint)
    (hh : h ≠ 0) (htr : trackHandles live t = some live1) :
    t.count (.glCreateProgram h) + liveCount live h
      = t.count (.glDeleteProgram h) + liveCount live1 h := by
  induction t generalizing live with
  | nil =>
    simp only [trackHandles, Option.some.injEq] at htr
    simp [htr]
  | cons c rest ih =>
    simp only [trackHandles] at htr
    cases hc : trackHandle live c with
    | none => simp [hc] at htr
    | some l =>
      simp only [hc] at htr
      have key := ih l htr
      cases c with
      | glCreateProgram r =>
        simp only [trackHandle] at hc
        by_cases hr : r = 0
        · simp only [hr, if_true, Option.some.injEq] at hc
          subst hc
          have hne : ¬ (0 = h) := fun e => hh e.symm
          simpa [List.count_cons, hr, hne] using key
        · cases live with
          | some p => simp [hr] at hc
          | none =>
            simp only [hr, if_false, Option.some.injEq] at hc
            subst hc
            by_cases e : r = h
            · simpa [List.count_cons, liveCount, e] using key
            · simpa [List.count_cons, liveCount, e] using key
      | glDeleteProgram p =>
        simp only [trackHandle] at hc
        split_ifs at hc with hp
        simp only [Option.some.injEq] at hc
        subst hc
        subst hp
        by_cases e : p = h
        · simp [List.count_cons, liveCount, e] at key ⊢
          omega
        · simpa [List.count_cons, liveCount, e] using key
      | _ =>
        simp only [trackHandle, Option.some.injEq] at hc
        subst hc
        simpa [List.count_cons] using key

theorem Follows.refl (self : OpenGLShaderProgram) (w : World) : Follows self w self w :=
  ⟨[], by simp, by simp [trackHandles]⟩

theorem Follows.trans {s0 s1 s2 : OpenGLShaderProgram} {w0 w1 w2 : World}
    (h01 : Follows s0 w0 s1 w1) (h12 : Follows s1 w1 s2 w2) : Follows s0 w0 s2 w2 := by
  obtain ⟨t, ht, htr⟩ := h01
  obtain ⟨u, hu, hur⟩ := h12
  refine ⟨t ++ u, ?_, ?_⟩
  · rw [hu, ht, List.append_assoc]
  · rw [trackHandles_append, htr]
    simpa using hur

/-- The two ways `getProgramID()` can go. -/
theorem getProgramID_cases (self : OpenGLShaderProgram) (w : World) :
    (self.programID = 0
      ∧ self.getProgramID w
          = (w.driver.createProgram w.calls,
             { self with programID := w.driver.createProgram w.calls },
             ⟨w.driver, w.calls ++ [.glCreateProgram (w.driver.createProgram w.calls)]⟩))
    ∨ (self.programID ≠ 0 ∧ self.getProgramID w = (self.programID, self, w)) := by
  by_cases h : self.programID = 0
  · left
    simp [getProgramID, glCreateProgram, World.emit, h]
  · right
    simp [getProgramID, h]

/-- What `getProgramID()` does in either case: it adds the calls `g` (none, or
one `glCreateProgram`), returns the new `programID`, and touches nothing else. -/
theorem getProgramID_shape (self : OpenGLShaderProgram) (w : World) :
    ∃ (g : List GLCall) (p : GLuint),
      self.getProgramID w = (p, { self with programID := p }, ⟨w.driver, w.calls ++ g⟩)
      ∧ ((self.programID = 0 ∧ p = w.driver.createProgram w.calls ∧ g = [.glCreateProgram p])
          ∨ (self.programID ≠ 0 ∧ p = self.programID ∧ g = [])) := by
  rcases getProgramID_cases self w with ⟨h0, h⟩ | ⟨h0, h⟩
  · exact ⟨_, _, h, Or.inl ⟨h0, rfl, rfl⟩⟩
  · refine ⟨[], self.programID, ?_, Or.inr ⟨h0, rfl, rfl⟩⟩
    simp [h]

/-- The two ways `addShader` can go: the reported status is `0` and the info log
is fetched, or it is not `0` and the shader is attached to the program. -/
theorem addShader_cases (self : OpenGLShaderProgram) (w : World) (code : String)
    (type : GLenum) :
    (∃ (shaderID : GLuint) (infoLogLength : Nat) (infoLog : List Char),
      self.addShader w code type
        = (false, { self with errorLog := String.mk (infoLog.take infoLogLength) },
           ⟨w.driver, w.calls ++
             [.glCreateShader type shaderID, .glShaderSource shaderID code,
              .glCompileShader shaderID, .glGetShaderiv shaderID .GL_COMPILE_STATUS 0,
              .glGetShaderInfoLog shaderID sizeof_infoLog infoLogLength infoLog]⟩))
    ∨ (∃ (shaderID : GLuint) (status : GLint) (g : List GLCall) (p : GLuint),
        status ≠ 0
        ∧ ((self.programID = 0 ∧ g = [.glCreateProgram p]) ∨ (p = self.programID ∧ p ≠ 0 ∧ g = []))
        ∧ self.addShader w code type
          = (true, { self with programID := p },
             ⟨w.driver, w.calls ++
               ([.glCreateShader type shaderID, .glShaderSource shaderID code,
                 .glCompileShader shaderID, .glGetShaderiv shaderID .GL_COMPILE_STATUS status]
                ++ g ++ [.glAttachShader p shaderID, .glDeleteShader shaderID])⟩)) := by
  obtain ⟨g, p, hg, hcase⟩ := getProgramID_shape self
    ⟨w.driver, w.calls ++ [.glCreateShader type (w.driver.createShader w.calls type),
      .glShaderSource (w.driver.createShader w.calls type) code,
      .glCompileShader (w.driver.createShader w.calls type),
      .glGetShaderiv (w.driver.createShader w.calls type) .GL_COMPILE_STATUS
        (w.driver.getShaderiv
          (w.calls ++ [.glCreateShader type (w.driver.createShader w.calls type),
            .glShaderSource (w.driver.createShader w.calls type) code,
            .glCompileShader (w.driver.createShader w.calls type)])
          (w.driver.createShader w.calls type) .GL_COMPILE_STATUS)]⟩
  by_cases hst : w.driver.getShaderiv
      (w.calls ++ [GLCall.glCreateShader type (w.driver.createShader w.calls type),
        GLCall.glShaderSource (w.driver.createShader w.calls type) code,
        GLCall.glCompileShader (w.driver.createShader w.calls type)])
      (w.driver.createShader w.calls type) GLenum.GL_COMPILE_STATUS = 0
  · left
    simp [addShader, glCreateShader, glShaderSource, glCompileShader, glGetShaderiv,
      glGetShaderInfoLog, World.emit, hst, String_fromBuffer]
    exact ⟨_, _, _, rfl, rfl, rfl, rfl⟩
  · right
    refine ⟨w.driver.createShader w.calls type, _, g, p, hst, ?_, ?_⟩
    · rcases hcase with ⟨h0, _, hg0⟩ | ⟨h0, hp, hg0⟩
      · exact Or.inl ⟨h0, hg0⟩
      · exact Or.inr ⟨hp, hp ▸ h0, hg0⟩
    · simp [addShader, glCreateShader, glShaderSource, glCompileShader, glGetShaderiv,
        World.emit, hst, glAttachShader, glDeleteShader, hg]

/-- The two ways `link()` can go, after its `getProgramID()`: the reported status
is `0` and the info log is fetched, or it is not `0`. -/
theorem link_cases (self : OpenGLShaderProgram) (w : World) :
    ∃ (g : List GLCall) (p : GLuint),
      ((self.programID = 0 ∧ p = w.driver.createProgram w.calls ∧ g = [.glCreateProgram p])
        ∨ (self.programID ≠ 0 ∧ p = self.programID ∧ g = []))
      ∧ self.getProgramID w = (p, { self with programID := p }, ⟨w.driver, w.calls ++ g⟩)
      ∧ ((∃ (infoLogLength : Nat) (infoLog : List Char),
            w.driver.getProgramiv (w.calls ++ g ++ [.glLinkProgram p]) p .GL_LINK_STATUS = 0
            ∧ self.link w
              = (false,
                 { self with programID := p,
                             errorLog := String.mk (infoLog.take infoLogLength) },
                 ⟨w.driver, w.calls ++
                   (g ++ [.glLinkProgram p, .glGetProgramiv p .GL_LINK_STATUS 0,
                          .glGetProgramInfoLog p sizeof_infoLog infoLogLength infoLog])⟩))
        ∨ (∃ status : GLint,
            status ≠ 0
            ∧ w.driver.getProgramiv (w.calls ++ g ++ [.glLinkProgram p]) p .GL_LINK_STATUS
                = status
            ∧ self.link w
              = (true, { self with programID := p },
                 ⟨w.driver, w.calls ++
                   (g ++ [.glLinkProgram p, .glGetProgramiv p .GL_LINK_STATUS status])⟩))) := by
  obtain ⟨g, p, hg, hcase⟩ := getProgramID_shape self w
  refine ⟨g, p, hcase, hg, ?_⟩
  by_cases hst :
      w.driver.getProgramiv (w.calls ++ g ++ [.glLinkProgram p]) p .GL_LINK_STATUS = 0
  · left
    refine ⟨(w.driver.getProgramInfoLog
        (w.calls ++ g ++ [.glLinkProgram p, .glGetProgramiv p .GL_LINK_STATUS 0]) p
        sizeof_infoLog).1,
      (w.driver.getProgramInfoLog
        (w.calls ++ g ++ [.glLinkProgram p, .glGetProgramiv p .GL_LINK_STATUS 0]) p
        sizeof_infoLog).2, hst, ?_⟩
    simp only [link, hg, glLinkProgram, glGetProgramiv, glGetProgramInfoLog, World.emit, hst,
      String_fromBuffer, if_true]
    simp
  · right
    refine ⟨_, hst, rfl, ?_⟩
    simp only [link, hg, glLinkProgram, glGetProgramiv, glGetProgramInfoLog, World.emit, hst,
      String_fromBuffer, if_false]
    simp

theorem Op.run_follows (op : Op) (self : OpenGLShaderProgram) (w : World) :
    Follows self w (op.run self w).2.1 (op.run self w).2.2 := by
  unfold Follows
  cases op <;>
  simp only [Op.run, addVertexShader, addFragmentShader, addShader, link, getProgramID, release,
    use, getUniformIDFromName, setUniform1i, setUniform4i, Attribute.new, Uniform.new,
    glCreateProgram, glDeleteProgram, glCreateShader, glShaderSource, glCompileShader,
    glGetShaderiv, glGetShaderInfoLog, glAttachShader, glDeleteShader, glLinkProgram,
    glGetProgramiv, glGetProgramInfoLog, glUseProgram, glGetUniformLocation, glGetAttribLocation,
    glUniform1i, glUniform4i, World.emit] <;>
  (try split_ifs) <;>
  simp [trackHandles, trackHandle, liveHandle, *] <;>
  split_ifs <;> simp_all

theorem runOps_follows (ops : List Op) (self : OpenGLShaderProgram) (w : World) :
    Follows self w (runOps ops self w).1 (runOps ops self w).2 := by
  induction ops generalizing self w with
  | nil => exact Follows.refl self w
  | cons op rest ih =>
    simp only [runOps]
    exact (Op.run_follows op self w).trans (ih _ _)

theorem release_programID (self : OpenGLShaderProgram) (w : World) :
    (self.release w).1.programID = 0 := by
  by_cases h : self.programID = 0 <;> simp [release, h]

theorem lifetime_follows (c : OpenGLContext) (w0 : World) (ops : List Op) :
    ∃ t, (lifetime c w0 ops).2.calls = w0.calls ++ t ∧ trackHandles none t = some none := by
  have h1 := runOps_follows ops (new c) w0
  have h2 := Op.run_follows .release (runOps ops (new c) w0).1 (runOps ops (new c) w0).2
  obtain ⟨t, ht, htr⟩ := h1.trans h2
  refine ⟨t, ht, ?_⟩
  have hp := release_programID (runOps ops (new c) w0).1 (runOps ops (new c) w0).2
  have h0 : liveHandle (new c) = none := by simp [liveHandle, new]
  have h3 : liveHandle (Op.release.run (runOps ops (new c) w0).1 (runOps ops (new c) w0).2).2.1
      = none := by
    simp only [liveHandle, Op.run, hp, if_true]
  rw [h0, h3] at htr
  exact htr

/-- What a caller of `addShader` observes: the calls added hold one compile
status, no link status and no `glLinkProgram`, and the result tells whether the
status was non-zero. -/
theorem addShader_report (self : OpenGLShaderProgram) (w : World) (code : String)
    (type : GLenum) :
    ∃ (t : List GLCall) (st : GLint) (self1 : OpenGLShaderProgram),
      self.addShader w code type = (decide (st ≠ 0), self1, ⟨w.driver, w.calls ++ t⟩)
      ∧ compileStatuses t = [st] ∧ linkStatuses t = []
      ∧ (∀ p, GLCall.glLinkProgram p ∉ t) := by
  rcases addShader_cases self w code type with ⟨sid, len, log, h⟩ | ⟨sid, st, g, p, hst, hg, h⟩
  · rw [h]
    refine ⟨[.glCreateShader type sid, .glShaderSource sid code, .glCompileShader sid,
        .glGetShaderiv sid .GL_COMPILE_STATUS 0,
        .glGetShaderInfoLog sid sizeof_infoLog len log], 0,
      { self with errorLog := String.mk (log.take len) }, by simp, ?_, ?_, ?_⟩ <;>
      simp [compileStatuses, linkStatuses, GLCall.compileStatus, GLCall.linkStatus]
  · rw [h]
    refine ⟨[.glCreateShader type sid, .glShaderSource sid code, .glCompileShader sid,
        .glGetShaderiv sid .GL_COMPILE_STATUS st] ++ g
          ++ [.glAttachShader p sid, .glDeleteShader sid], st,
      { self with programID := p }, by simp [hst], ?_, ?_, ?_⟩ <;>
      rcases hg with ⟨_, rfl⟩ | ⟨_, _, rfl⟩ <;>
      simp [compileStatuses, linkStatuses, GLCall.compileStatus, GLCall.linkStatus]

/-- What a caller of `link()` observes: the calls added hold no compile status,
one link status and one `glLinkProgram`, for the handle held afterwards; the
result tells whether the status was non-zero; and a driver that reports no
status for the null program name reports `0` when that handle is `0`. -/
theorem link_report (self : OpenGLShaderProgram) (w : World) :
    ∃ (t : List GLCall) (st : GLint) (self1 : OpenGLShaderProgram),
      self.link w = (decide (st ≠ 0), self1, ⟨w.driver, w.calls ++ t⟩)
      ∧ compileStatuses t = [] ∧ linkStatuses t = [st]
      ∧ (∀ p, GLCall.glLinkProgram p ∈ t ↔ p = self1.programID)
      ∧ (w.driver.rejectsNullProgram → self1.programID = 0 → st = 0) := by
  obtain ⟨g, p, hcase, hg, ⟨len, log, hst, h⟩ | ⟨st, hst, hst2, h⟩⟩ := link_cases self w
  · rw [h]
    refine ⟨g ++ [.glLinkProgram p, .glGetProgramiv p .GL_LINK_STATUS 0,
        .glGetProgramInfoLog p sizeof_infoLog len log], 0,
      { self with programID := p, errorLog := String.mk (log.take len) }, by simp, ?_, ?_, ?_,
      fun _ _ => rfl⟩ <;>
      rcases hcase with ⟨_, _, rfl⟩ | ⟨_, _, rfl⟩ <;>
      simp [compileStatuses, linkStatuses, GLCall.compileStatus, GLCall.linkStatus]
  · rw [h]
    refine ⟨g ++ [.glLinkProgram p, .glGetProgramiv p .GL_LINK_STATUS st], st,
      { self with programID := p }, by simp [hst], ?_, ?_, ?_, ?_⟩
    · rcases hcase with ⟨_, _, rfl⟩ | ⟨_, _, rfl⟩ <;>
        simp [compileStatuses, linkStatuses, GLCall.compileStatus, GLCall.linkStatus]
    · rcases hcase with ⟨_, _, rfl⟩ | ⟨_, _, rfl⟩ <;>
        simp [compileStatuses, linkStatuses, GLCall.compileStatus, GLCall.linkStatus]
    · rcases hcase with ⟨_, _, rfl⟩ | ⟨_, _, rfl⟩ <;>
        simp [compileStatuses, linkStatuses, GLCall.compileStatus, GLCall.linkStatus]
    · intro hd hp0
      simp only at hp0
      rw [← hst2, hp0]
      exact hd _ _

theorem SameAnswers.append {w1 w2 : World} (h : SameAnswers w1 w2) (t : List GLCall) :
    SameAnswers ⟨w1.driver, w1.calls ++ t⟩ ⟨w2.driver, w2.calls ++ t⟩ := by
  intro u
  simpa [List.append_assoc] using h (t ++ u)

theorem SameAnswers.restart (w : World) : SameAnswers w w.restart := by
  intro t
  simp [World.restart, Driver.after]

theorem SameAnswers.restart_eq {w1 w2 : World} (h : SameAnswers w1 w2) :
    w1.restart = w2.restart := by
  simp only [World.restart, Driver.after, World.mk.injEq, Driver.mk.injEq, and_true]
  refine ⟨?_, ?_, ?_, ?_, ?_, ?_, ?_, ?_, ?_⟩ <;> funext t
  · exact (h t).1
  · exact (h t).2.1
  · exact (h t).2.2.1
  · exact (h t).2.2.2.1
  · exact (h t).2.2.2.2.1
  · exact (h t).2.2.2.2.2.1
  · exact (h t).2.2.2.2.2.2.1
  · exact (h t).2.2.2.2.2.2.2.1
  · exact (h t).2.2.2.2.2.2.2.2

theorem addShader_restart (self : OpenGLShaderProgram) (w : World) (code : String)
    (type : GLenum) :
    self.addShader w code type
      = ((self.addShader w.restart code type).1, (self.addShader w.restart code type).2.1,
         ⟨w.driver, w.calls ++ (self.addShader w.restart code type).2.2.calls⟩) := by
  by_cases hp : self.programID = 0 <;>
  simp [addShader, getProgramID, glCreateProgram, glCreateShader, glShaderSource,
    glCompileShader, glGetShaderiv, glGetShaderInfoLog, glAttachShader, glDeleteShader,
    World.emit, World.restart, Driver.after, hp] <;>
  split_ifs <;> simp

theorem link_restart (self : OpenGLShaderProgram) (w : World) :
    self.link w
      = ((self.link w.restart).1, (self.link w.restart).2.1,
         ⟨w.driver, w.calls ++ (self.link w.restart).2.2.calls⟩) := by
  by_cases hp : self.programID = 0 <;>
  simp [link, getProgramID, glCreateProgram, glLinkProgram, glGetProgramiv,
    glGetProgramInfoLog, World.emit, World.restart, Driver.after, hp] <;>
  split_ifs <;> simp

/-- In one world, `addShader` on two instances that hold the same handle: the
same result, handle and world; the error log is kept on `true` and is the same
new text on `false`. -/
theorem addShader_errorLog_irrelevant (s1 s2 : OpenGLShaderProgram) (w : World) (code : String)
    (type : GLenum) (hid : s1.programID = s2.programID) :
    s1.addShader w code type
      = ((s2.addShader w code type).1,
         ⟨s1.context, (s2.addShader w code type).2.1.programID,
           if (s2.addShader w code type).1 then s1.errorLog
           else (s2.addShader w code type).2.1.errorLog⟩,
         (s2.addShader w code type).2.2) := by
  rcases s1 with ⟨c1, p1, e1⟩
  rcases s2 with ⟨c2, p2, e2⟩
  simp only at hid
  subst hid
  by_cases hp : p1 = 0 <;>
  by_cases hst : w.driver.getShaderiv
      (w.calls ++ [.glCreateShader type (w.driver.createShader w.calls type),
        .glShaderSource (w.driver.createShader w.calls type) code,
        .glCompileShader (w.driver.createShader w.calls type)])
      (w.driver.createShader w.calls type) .GL_COMPILE_STATUS = 0 <;>
  simp [addShader, getProgramID, glCreateProgram, glCreateShader, glShaderSource,
    glCompileShader, glGetShaderiv, glGetShaderInfoLog, glAttachShader, glDeleteShader,
    World.emit, hp, hst]

theorem link_errorLog_irrelevant (s1 s2 : OpenGLShaderProgram) (w : World)
    (hid : s1.programID = s2.programID) :
    s1.link w
      = ((s2.link w).1,
         ⟨s1.context, (s2.link w).2.1.programID,
           if (s2.link w).1 then s1.errorLog else (s2.link w).2.1.errorLog⟩,
         (s2.link w).2.2) := by
  rcases s1 with ⟨c1, p1, e1⟩
  rcases s2 with ⟨c2, p2, e2⟩
  simp only at hid
  subst hid
  by_cases hp : p1 = 0
  · by_cases hst : w.driver.getProgramiv
        (w.calls ++ [.glCreateProgram (w.driver.createProgram w.calls),
          .glLinkProgram (w.driver.createProgram w.calls)])
        (w.driver.createProgram w.calls) .GL_LINK_STATUS = 0 <;>
    simp [link, getProgramID, glCreateProgram, glLinkProgram, glGetProgramiv,
      glGetProgramInfoLog, World.emit, hp, hst]
  · by_cases hst : w.driver.getProgramiv (w.calls ++ [.glLinkProgram p1]) p1
        .GL_LINK_STATUS = 0 <;>
    simp [link, getProgramID, glCreateProgram, glLinkProgram, glGetProgramiv,
      glGetProgramInfoLog, World.emit, hp, hst]

/-- Under the same driver answers, `addShader` on two instances that hold the
same handle: the same result, the same new handle and the same calls; the
error log is kept on `true` and is the same new text on `false`. -/
theorem addShader_sim (s1 s2 : OpenGLShaderProgram) (w1 w2 : World) (code : String)
    (type : GLenum) (hid : s1.programID = s2.programID) (h : SameAnswers w1 w2) :
    ∃ (t : List GLCall) (b : Bool) (p : GLuint) (e : String),
      s2.addShader w2 code type = (b, ⟨s2.context, p, e⟩, ⟨w2.driver, w2.calls ++ t⟩)
      ∧ s1.addShader w1 code type
          = (b, ⟨s1.context, p, if b then s1.errorLog else e⟩, ⟨w1.driver, w1.calls ++ t⟩)
      ∧ (b = true → e = s2.errorLog) := by
  have hk := addShader_errorLog_irrelevant s2 s2 w2.restart code type rfl
  have h1 := addShader_restart s1 w1 code type
  have h2 := addShader_restart s2 w2 code type
  rw [h.restart_eq, addShader_errorLog_irrelevant s1 s2 w2.restart code type hid] at h1
  generalize s2.addShader w2.restart code type = r at hk h1 h2
  rcases r with ⟨b, ⟨c, p, e⟩, W⟩
  simp only [Prod.mk.injEq, OpenGLShaderProgram.mk.injEq, true_and, and_true] at hk
  refine ⟨W.calls, b, p, e, ?_, h1, ?_⟩
  · rw [h2, ← hk.1]
  · intro hb
    have := hk.2
    simp only [hb, if_true] at this
    exact this

/-- Under the same driver answers, `link()` on two instances that hold the same
handle: the same result, the same new handle and the same calls; the error log
is kept on `true` and is the same new text on `false`. -/
theorem link_sim (s1 s2 : OpenGLShaderProgram) (w1 w2 : World)
    (hid : s1.programID = s2.programID) (h : SameAnswers w1 w2) :
    ∃ (t : List GLCall) (b : Bool) (p : GLuint) (e : String),
      s2.link w2 = (b, ⟨s2.context, p, e⟩, ⟨w2.driver, w2.calls ++ t⟩)
      ∧ s1.link w1
          = (b, ⟨s1.context, p, if b then s1.errorLog else e⟩, ⟨w1.driver, w1.calls ++ t⟩)
      ∧ (b = true → e = s2.errorLog) := by
  have hk := link_errorLog_irrelevant s2 s2 w2.restart rfl
  have h1 := link_restart s1 w1
  have h2 := link_restart s2 w2
  rw [h.restart_eq, link_errorLog_irrelevant s1 s2 w2.restart hid] at h1
  generalize s2.link w2.restart = r at hk h1 h2
  rcases r with ⟨b, ⟨c, p, e⟩, W⟩
  simp only [Prod.mk.injEq, OpenGLShaderProgram.mk.injEq, true_and, and_true] at hk
  refine ⟨W.calls, b, p, e, ?_, h1, ?_⟩
  · rw [h2, ← hk.1]
  · intro hb
    have := hk.2
    simp only [hb, if_true] at this
    exact this

theorem String_retainCharacters_toList (s cs : String) :
    (String_retainCharacters s cs).toList
      = s.toList.filter (fun ch => decide (ch ∈ cs.toList)) := rfl

/-! ### The claims -/

/-- C1: `release()` is idempotent.  From every state the state after `release()`
has `programID = 0`; a second `release()` changes neither the instance nor the
call history; with `programID = 0` already, `release()` makes no driver call and
changes nothing; with a handle present it makes the one call
`glDeleteProgram (programID)`. -/
theorem release_idempotent (self : OpenGLShaderProgram) (w : World) :
    (self.release w).1.programID = 0
    ∧ (self.release w).1.release (self.release w).2 = self.release w
    ∧ (self.programID = 0 → self.release w = (self, w))
    ∧ (self.programID ≠ 0 →
        self.release w
          = ({ self with programID := 0 }, w.emit (.glDeleteProgram self.programID))) := by
  by_cases h : self.programID = 0 <;> simp [release, glDeleteProgram, h]

/-- Witness for C1: a never-created program on a fresh world is left as it is. -/
theorem release_idempotent_witness :
    (OpenGLShaderProgram.new ⟨0⟩).programID = 0
    ∧ (OpenGLShaderProgram.new ⟨0⟩).release ⟨okDriver, []⟩
        = (OpenGLShaderProgram.new ⟨0⟩, ⟨okDriver, []⟩) :=
  ⟨rfl, (release_idempotent (OpenGLShaderProgram.new ⟨0⟩) ⟨okDriver, []⟩).2.2.1 rfl⟩

/-- C2: after any sequence of operations on a new instance the one handle that
is live (created and not yet deleted) is the `programID` the instance holds, if
that is not `0`, and no handle is live otherwise.  Over the whole life
(construction, the operations, destruction) the calls keep the handle discipline
at every moment: a program is created only while none is live and only the live
handle is deleted, so at most one handle is live and none is deleted twice; at
the end no handle is live; and every non-zero handle was passed to
`glDeleteProgram` as often as `glCreateProgram` returned it. -/
theorem program_handle_released_exactly_once (c : OpenGLContext) (w0 : World) (ops : List Op) :
    trackHandles none (((runOps ops (OpenGLShaderProgram.new c) w0).2).since w0)
        = some (liveHandle (runOps ops (OpenGLShaderProgram.new c) w0).1)
    ∧ trackHandles none ((lifetime c w0 ops).2.since w0) = some none
    ∧ (∀ n, (trackHandles none (((lifetime c w0 ops).2.since w0).take n)).isSome)
    ∧ (∀ h, h ≠ 0 →
        ((lifetime c w0 ops).2.since w0).count (.glCreateProgram h)
          = ((lifetime c w0 ops).2.since w0).count (.glDeleteProgram h))
    ∧ (lifetime c w0 ops).1.programID = 0 := by
  obtain ⟨u, hu, hur⟩ := runOps_follows ops (OpenGLShaderProgram.new c) w0
  obtain ⟨t, ht, htr⟩ := lifetime_follows c w0 ops
  rw [World.since_of_calls ht, World.since_of_calls hu]
  have h0 : liveHandle (OpenGLShaderProgram.new c) = none := by simp [liveHandle, new]
  rw [h0] at hur
  refine ⟨hur, htr, ?_, ?_, release_programID _ _⟩
  · intro n
    exact trackHandles_take none t n (by simp [htr])
  · intro h hh
    simpa [liveCount] using trackHandles_count none none t h hh htr

/-- Witness for C2: a life that builds, uses, releases and re-creates a program;
the handle `5` is created once and deleted once. -/
theorem program_handle_released_exactly_once_witness :
    (5 : GLuint) ≠ 0
    ∧ ((lifetime ⟨0⟩ ⟨okDriver, []⟩
          [.addVertexShader "v", .link, .use, .release, .getProgramID]).2.since
            ⟨okDriver, []⟩).count (.glCreateProgram 5) = 1
    ∧ ((lifetime ⟨0⟩ ⟨okDriver, []⟩
          [.addVertexShader "v", .link, .use, .release, .getProgramID]).2.since
            ⟨okDriver, []⟩).count (.glCreateProgram 5)
        = ((lifetime ⟨0⟩ ⟨okDriver, []⟩
            [.addVertexShader "v", .link, .use, .release, .getProgramID]).2.since
              ⟨okDriver, []⟩).count (.glDeleteProgram 5) :=
  ⟨by decide, by decide,
   (program_handle_released_exactly_once ⟨0⟩ ⟨okDriver, []⟩
      [.addVertexShader "v", .link, .use, .release, .getProgramID]).2.2.2.1 5 (by decide)⟩

/-- C3: when the driver reports compile status `0`, `addShader` returns `false`;
its calls are exactly `glCreateShader`, `glShaderSource`, `glCompileShader`, the
status query and `glGetShaderInfoLog` (so no `glAttachShader` and no
`glCreateProgram`); `errorLog` becomes the first `infoLogLength` characters of
the info log and nothing else of the instance changes, `programID` included.
`addVertexShader` and `addFragmentShader` are `addShader` with the shader kind. -/
theorem addShader_compile_failure (self : OpenGLShaderProgram) (w : World) (code : String)
    (type : GLenum)
    (hfail : compileStatuses ((self.addShader w code type).2.2.since w) = [0]) :
    (self.addShader w code type).1 = false
    ∧ (∃ (shaderID : GLuint) (infoLogLength : Nat) (infoLog : List Char),
        (self.addShader w code type).2.2.since w
          = [.glCreateShader type shaderID, .glShaderSource shaderID code,
             .glCompileShader shaderID, .glGetShaderiv shaderID .GL_COMPILE_STATUS 0,
             .glGetShaderInfoLog shaderID sizeof_infoLog infoLogLength infoLog]
        ∧ (self.addShader w code type).2.1
          = { self with errorLog := String.mk (infoLog.take infoLogLength) })
    ∧ (∀ c ∈ (self.addShader w code type).2.2.since w,
        c.isAttachShader = false ∧ c.isCreateProgram = false)
    ∧ (self.addShader w code type).2.1.programID = self.programID
    ∧ self.addVertexShader w code = self.addShader w code .GL_VERTEX_SHADER
    ∧ self.addFragmentShader w code = self.addShader w code .GL_FRAGMENT_SHADER := by
  rcases addShader_cases self w code type with ⟨sid, len, log, h⟩ | ⟨sid, st, g, p, hst, hg, h⟩
  · rw [h]
    refine ⟨rfl, ⟨sid, len, log, by simp [World.since], rfl⟩, ?_, rfl, rfl, rfl⟩
    simp [World.since, GLCall.isAttachShader, GLCall.isCreateProgram]
  · exfalso
    rw [h] at hfail
    rcases hg with ⟨_, rfl⟩ | ⟨_, _, rfl⟩ <;>
      simp [World.since, compileStatuses, GLCall.compileStatus] at hfail <;>
      exact hst hfail

/-- Witness for C3: a vertex shader rejected by `failingDriver`. -/
theorem addShader_compile_failure_witness :
    compileStatuses (((OpenGLShaderProgram.new ⟨0⟩).addShader ⟨failingDriver, []⟩ "void main( \x7b"
        .GL_VERTEX_SHADER).2.2.since ⟨failingDriver, []⟩) = [0]
    ∧ ((OpenGLShaderProgram.new ⟨0⟩).addShader ⟨failingDriver, []⟩ "void main( \x7b"
        .GL_VERTEX_SHADER).1 = false :=
  ⟨by decide,
   (addShader_compile_failure (OpenGLShaderProgram.new ⟨0⟩) ⟨failingDriver, []⟩ "void main( \x7b"
      .GL_VERTEX_SHADER (by decide)).1⟩

/-- C4: `link()` makes one `GL_LINK_STATUS` query, for the handle it linked, and
returns `true` exactly when the reported status is non-zero.  The handle linked
is the one `getProgramID()` gives and is `programID` after the call (a handle
held before the call is kept).  On status `0` the call returns `false` and
`errorLog` becomes the first `infoLogLength` characters of the program info
log; on a non-zero status it returns `true` and `errorLog` is unchanged.  No
`glDeleteProgram` call is made. -/
theorem link_result (self : OpenGLShaderProgram) (w : World) :
    ∃ st : GLint,
      linkStatuses ((self.link w).2.2.since w) = [st]
      ∧ ((self.link w).1 = true ↔ st ≠ 0)
      ∧ (self.link w).2.1.programID = (self.getProgramID w).1
      ∧ (self.programID ≠ 0 → (self.link w).2.1.programID = self.programID)
      ∧ (∀ c ∈ (self.link w).2.2.since w, c.isDeleteProgram = false)
      ∧ (st = 0 →
          (self.link w).1 = false
          ∧ ∃ (infoLogLength : Nat) (infoLog : List Char),
              (self.link w).2.2.since w
                = (self.getProgramID w).2.2.since w
                  ++ [.glLinkProgram (self.link w).2.1.programID,
                      .glGetProgramiv (self.link w).2.1.programID .GL_LINK_STATUS 0,
                      .glGetProgramInfoLog (self.link w).2.1.programID sizeof_infoLog
                        infoLogLength infoLog]
              ∧ (self.link w).2.1.errorLog = String.mk (infoLog.take infoLogLength))
      ∧ (st ≠ 0 →
          (self.link w).1 = true
          ∧ (self.link w).2.2.since w
              = (self.getProgramID w).2.2.since w
                ++ [.glLinkProgram (self.link w).2.1.programID,
                    .glGetProgramiv (self.link w).2.1.programID .GL_LINK_STATUS st]
          ∧ (self.link w).2.1.errorLog = self.errorLog) := by
  obtain ⟨g, p, hcase, hg, ⟨len, log, hst, h⟩ | ⟨st, hst, _, h⟩⟩ := link_cases self w
  · refine ⟨0, ?_⟩
    rw [h, hg]
    rcases hcase with ⟨h0, rfl, rfl⟩ | ⟨h0, rfl, rfl⟩ <;>
      simp [World.since, linkStatuses, GLCall.linkStatus, GLCall.isDeleteProgram, h0]
    · exact ⟨len, log, ⟨rfl, rfl⟩, rfl⟩
    · exact ⟨len, log, ⟨rfl, rfl⟩, rfl⟩
  · refine ⟨st, ?_⟩
    rw [h, hg]
    rcases hcase with ⟨h0, rfl, rfl⟩ | ⟨h0, rfl, rfl⟩ <;>
      simp [World.since, linkStatuses, GLCall.linkStatus, GLCall.isDeleteProgram, h0, hst]

/-- Witness for C4: on `unlinkableDriver` the reported status is `0` and `link()`
returns `false`. -/
theorem link_result_witness :
    linkStatuses (((OpenGLShaderProgram.new ⟨0⟩).link ⟨unlinkableDriver, []⟩).2.2.since
        ⟨unlinkableDriver, []⟩) = [0]
    ∧ ((OpenGLShaderProgram.new ⟨0⟩).link ⟨unlinkableDriver, []⟩).1 = false := by
  have hrep : linkStatuses (((OpenGLShaderProgram.new ⟨0⟩).link ⟨unlinkableDriver, []⟩).2.2.since
      ⟨unlinkableDriver, []⟩) = [0] := by decide
  obtain ⟨st, hst, _, _, _, _, hfail, _⟩ :=
    link_result (OpenGLShaderProgram.new ⟨0⟩) ⟨unlinkableDriver, []⟩
  have h0 : st = 0 := by
    rw [hrep] at hst
    exact (List.cons.inj hst).1.symm
  exact ⟨hrep, (hfail h0).1⟩

/-- C5: from a newly constructed instance, on a driver that reports no status
for the null program name, when the driver reports a non-zero compile status for
both shaders and a non-zero link status, `addVertexShader`, `addFragmentShader`
and `link` all return `true`; the expression asserted by `use()` then holds
(`programID` is not `0`), exactly one handle was linked and it is `programID`,
and `use()` makes the one call `glUseProgram` with that handle. -/
theorem build_then_use (c : OpenGLContext) (w : World) (vertexCode fragmentCode : String)
    (hdriver : w.driver.rejectsNullProgram)
    (hcompile : ∀ st ∈ compileStatuses
        ((build (OpenGLShaderProgram.new c) w vertexCode fragmentCode).2.2.since w), st ≠ 0)
    (hlink : ∀ st ∈ linkStatuses
        ((build (OpenGLShaderProgram.new c) w vertexCode fragmentCode).2.2.since w), st ≠ 0) :
    (build (OpenGLShaderProgram.new c) w vertexCode fragmentCode).1 = (true, true, true)
    ∧ (build (OpenGLShaderProgram.new c) w vertexCode fragmentCode).2.1.use_jassert = true
    ∧ (build (OpenGLShaderProgram.new c) w vertexCode fragmentCode).2.1.programID ≠ 0
    ∧ (∀ p, GLCall.glLinkProgram p
          ∈ (build (OpenGLShaderProgram.new c) w vertexCode fragmentCode).2.2.since w
        ↔ p = (build (OpenGLShaderProgram.new c) w vertexCode fragmentCode).2.1.programID)
    ∧ ((build (OpenGLShaderProgram.new c) w vertexCode fragmentCode).2.1.use
          (build (OpenGLShaderProgram.new c) w vertexCode fragmentCode).2.2).since
        (build (OpenGLShaderProgram.new c) w vertexCode fragmentCode).2.2
      = [.glUseProgram
          (build (OpenGLShaderProgram.new c) w vertexCode fragmentCode).2.1.programID] := by
  obtain ⟨t1, s1, a, h1, hc1, hl1, hk1⟩ :=
    addShader_report (OpenGLShaderProgram.new c) w vertexCode .GL_VERTEX_SHADER
  obtain ⟨t2, s2, b, h2, hc2, hl2, hk2⟩ :=
    addShader_report a ⟨w.driver, w.calls ++ t1⟩ fragmentCode .GL_FRAGMENT_SHADER
  obtain ⟨t3, s3, d, h3, hc3, hl3, hk3, hnull⟩ := link_report b ⟨w.driver, w.calls ++ t1 ++ t2⟩
  have hb : build (OpenGLShaderProgram.new c) w vertexCode fragmentCode
      = ((decide (s1 ≠ 0), decide (s2 ≠ 0), decide (s3 ≠ 0)), d,
          ⟨w.driver, w.calls ++ (t1 ++ t2 ++ t3)⟩) := by
    simp only [build, addVertexShader, addFragmentShader, h1, h2, h3]
    simp only [List.append_assoc]
  rw [hb] at hcompile hlink ⊢
  simp only [World.since, List.drop_left, compileStatuses, linkStatuses,
    List.filterMap_append] at hcompile hlink
  simp only [compileStatuses, linkStatuses] at hc1 hc2 hc3 hl1 hl2 hl3
  rw [hc1, hc2, hc3] at hcompile
  rw [hl1, hl2, hl3] at hlink
  have e1 : s1 ≠ 0 := hcompile s1 (by simp)
  have e2 : s2 ≠ 0 := hcompile s2 (by simp)
  have e3 : s3 ≠ 0 := hlink s3 (by simp)
  have hd : d.programID ≠ 0 := fun h0 => e3 (hnull hdriver h0)
  refine ⟨by simp [e1, e2, e3], by simp [use_jassert, hd], hd, ?_, ?_⟩
  · intro p
    simp only [World.since, List.drop_left, List.mem_append]
    constructor
    · rintro ((h | h) | h)
      · exact absurd h (hk1 p)
      · exact absurd h (hk2 p)
      · exact (hk3 p).1 h
    · intro h
      exact Or.inr ((hk3 p).2 h)
  · simp [use, glUseProgram, World.emit, World.since]

/-- Witness for C5: the build on `okDriver`. -/
theorem build_then_use_witness :
    okDriver.rejectsNullProgram
    ∧ (∀ st ∈ compileStatuses
        ((build (OpenGLShaderProgram.new ⟨0⟩) ⟨okDriver, []⟩ "void main() \x7b\x7d"
          "void main() \x7b\x7d").2.2.since ⟨okDriver, []⟩), st ≠ 0)
    ∧ (∀ st ∈ linkStatuses
        ((build (OpenGLShaderProgram.new ⟨0⟩) ⟨okDriver, []⟩ "void main() \x7b\x7d"
          "void main() \x7b\x7d").2.2.since ⟨okDriver, []⟩), st ≠ 0)
    ∧ (build (OpenGLShaderProgram.new ⟨0⟩) ⟨okDriver, []⟩ "void main() \x7b\x7d"
        "void main() \x7b\x7d").1 = (true, true, true)
    ∧ (build (OpenGLShaderProgram.new ⟨0⟩) ⟨okDriver, []⟩ "void main() \x7b\x7d"
        "void main() \x7b\x7d").2.1.use_jassert = true :=
  ⟨fun _ _ => rfl, by decide, by decide,
   (build_then_use ⟨0⟩ ⟨okDriver, []⟩ "void main() \x7b\x7d" "void main() \x7b\x7d"
      (fun _ _ => rfl) (by decide) (by decide)).1,
   (build_then_use ⟨0⟩ ⟨okDriver, []⟩ "void main() \x7b\x7d" "void main() \x7b\x7d"
      (fun _ _ => rfl) (by decide) (by decide)).2.1⟩

/-- C6: `getProgramID()` allocates lazily.  With `programID = 0` it makes the one
call `glCreateProgram`, stores the answer and returns it; with a non-zero
`programID` it returns the stored handle, makes no driver call and changes
nothing.  So a second call right after one that returned non-zero returns the
same handle and changes nothing, and the returned handle is non-zero whenever
the driver's `glCreateProgram` answered non-zero. -/
theorem getProgramID_lazy (self : OpenGLShaderProgram) (w : World) :
    (self.programID = 0 →
        self.getProgramID w
          = (w.driver.createProgram w.calls,
             { self with programID := w.driver.createProgram w.calls },
             w.emit (.glCreateProgram (w.driver.createProgram w.calls))))
    ∧ (self.programID ≠ 0 → self.getProgramID w = (self.programID, self, w))
    ∧ ((self.getProgramID w).1 ≠ 0 →
        (self.getProgramID w).2.1.getProgramID (self.getProgramID w).2.2
          = ((self.getProgramID w).1, (self.getProgramID w).2))
    ∧ (self.programID = 0 → w.driver.createProgram w.calls ≠ 0 → (self.getProgramID w).1 ≠ 0)
    ∧ (self.getProgramID w).1 = (self.getProgramID w).2.1.programID := by
  by_cases h : self.programID = 0
  · simp [getProgramID, glCreateProgram, h]
    intro h2
    simp [h2]
  · simp [getProgramID, glCreateProgram, h]

/-- Witness for C6: the first call on a new instance creates the handle `1`. -/
theorem getProgramID_lazy_witness :
    (OpenGLShaderProgram.new ⟨0⟩).programID = 0
    ∧ (OpenGLShaderProgram.new ⟨0⟩).getProgramID ⟨okDriver, []⟩
        = (1, { OpenGLShaderProgram.new ⟨0⟩ with programID := 1 },
           World.emit ⟨okDriver, []⟩ (.glCreateProgram 1)) :=
  ⟨rfl, (getProgramID_lazy (OpenGLShaderProgram.new ⟨0⟩) ⟨okDriver, []⟩).1 rfl⟩

/-- Counterexample for C7: on `flakyDriver` the first `addVertexShader` fails and
leaves its diagnostic in `errorLog`; the second one succeeds and `errorLog` still
holds that diagnostic. -/
theorem errorLog_kept_by_successful_attempt :
    ((OpenGLShaderProgram.new ⟨0⟩).addVertexShader ⟨flakyDriver, []⟩ "void main( \x7b").1 = false
    ∧ ((OpenGLShaderProgram.new ⟨0⟩).addVertexShader ⟨flakyDriver, []⟩
        "void main( \x7b").2.1.errorLog = "ERROR: 0:1"
    ∧ (((OpenGLShaderProgram.new ⟨0⟩).addVertexShader ⟨flakyDriver, []⟩
          "void main( \x7b").2.1.addVertexShader
        ((OpenGLShaderProgram.new ⟨0⟩).addVertexShader ⟨flakyDriver, []⟩ "void main( \x7b").2.2
        "void main() \x7b\x7d").1 = true
    ∧ (((OpenGLShaderProgram.new ⟨0⟩).addVertexShader ⟨flakyDriver, []⟩
          "void main( \x7b").2.1.addVertexShader
        ((OpenGLShaderProgram.new ⟨0⟩).addVertexShader ⟨flakyDriver, []⟩ "void main( \x7b").2.2
        "void main() \x7b\x7d").2.1.errorLog = "ERROR: 0:1" := by
  decide

/-- C7, amended: `errorLog` is written only by a failing compile or link.  An
operation that returns `false` (only `addVertexShader`, `addFragmentShader` and
`link` return a boolean) ends with the info-log query and sets `errorLog` to the
first `infoLogLength` characters of the log the driver returned; every other
operation, a compile or link that returns `true` included, leaves `errorLog` as
it was. -/
theorem errorLog_written_only_on_failure (op : Op) (self : OpenGLShaderProgram) (w : World) :
    ((op.run self w).1 = some false →
        ∃ (id : GLuint) (infoLogLength : Nat) (infoLog : List Char),
          ((op.run self w).2.2.calls.getLast?
              = some (.glGetShaderInfoLog id sizeof_infoLog infoLogLength infoLog)
            ∨ (op.run self w).2.2.calls.getLast?
              = some (.glGetProgramInfoLog id sizeof_infoLog infoLogLength infoLog))
          ∧ (op.run self w).2.1.errorLog = String.mk (infoLog.take infoLogLength))
    ∧ ((op.run self w).1 ≠ some false → (op.run self w).2.1.errorLog = self.errorLog)
    ∧ ((op.run self w).1 ≠ none ↔
        (∃ code, op = .addVertexShader code) ∨ (∃ code, op = .addFragmentShader code)
          ∨ op = .link) := by
  cases op with
  | addVertexShader code =>
    simp only [Op.run, addVertexShader]
    rcases addShader_cases self w code .GL_VERTEX_SHADER with
      ⟨sid, len, log, h⟩ | ⟨sid, st, g, p, hst, hg, h⟩
    · rw [h]
      exact ⟨fun _ => ⟨sid, len, log, Or.inl (by simp), rfl⟩, by simp, by simp⟩
    · rw [h]
      simp
  | addFragmentShader code =>
    simp only [Op.run, addFragmentShader]
    rcases addShader_cases self w code .GL_FRAGMENT_SHADER with
      ⟨sid, len, log, h⟩ | ⟨sid, st, g, p, hst, hg, h⟩
    · rw [h]
      exact ⟨fun _ => ⟨sid, len, log, Or.inl (by simp), rfl⟩, by simp, by simp⟩
    · rw [h]
      simp
  | link =>
    simp only [Op.run]
    obtain ⟨g, p, hcase, hg, ⟨len, log, hst, h⟩ | ⟨st, hst, hst2, h⟩⟩ := link_cases self w
    · rw [h]
      refine ⟨fun _ => ⟨p, len, log, Or.inr ?_, rfl⟩, by simp, by simp⟩
      rw [← List.append_assoc]
      simp
    · rw [h]
      simp
  | getProgramID =>
    obtain ⟨g, p, hg, -⟩ := getProgramID_shape self w
    simp [Op.run, hg]
  | newAttribute name =>
    obtain ⟨g, p, hg, -⟩ := getProgramID_shape self w
    simp [Op.run, Attribute.new, hg]
  | newUniform name =>
    obtain ⟨g, p, hg, -⟩ := getProgramID_shape self w
    simp [Op.run, Uniform.new, hg]
  | release =>
    by_cases h : self.programID = 0 <;> simp [Op.run, release, h]
  | _ => simp [Op.run]

/-- Witness for C7, amended: the failing `addVertexShader` on `failingDriver` sets
`errorLog` to the first 10 characters of the driver's log; a `use()` leaves
`errorLog` as it was. -/
theorem errorLog_written_only_on_failure_witness :
    ((Op.addVertexShader "void main( \x7b").run (OpenGLShaderProgram.new ⟨0⟩)
        ⟨failingDriver, []⟩).1 = some false
    ∧ (∃ (id : GLuint) (infoLogLength : Nat) (infoLog : List Char),
        (((Op.addVertexShader "void main( \x7b").run (OpenGLShaderProgram.new ⟨0⟩)
              ⟨failingDriver, []⟩).2.2.calls.getLast?
            = some (.glGetShaderInfoLog id sizeof_infoLog infoLogLength infoLog)
          ∨ ((Op.addVertexShader "void main( \x7b").run (OpenGLShaderProgram.new ⟨0⟩)
              ⟨failingDriver, []⟩).2.2.calls.getLast?
            = some (.glGetProgramInfoLog id sizeof_infoLog infoLogLength infoLog))
        ∧ ((Op.addVertexShader "void main( \x7b").run (OpenGLShaderProgram.new ⟨0⟩)
              ⟨failingDriver, []⟩).2.1.errorLog = String.mk (infoLog.take infoLogLength))
    ∧ (Op.use.run (OpenGLShaderProgram.new ⟨0⟩) ⟨failingDriver, []⟩).2.1.errorLog
        = (OpenGLShaderProgram.new ⟨0⟩).errorLog :=
  ⟨by decide,
   (errorLog_written_only_on_failure (.addVertexShader "void main( \x7b")
      (OpenGLShaderProgram.new ⟨0⟩) ⟨failingDriver, []⟩).1 (by decide),
   (errorLog_written_only_on_failure .use (OpenGLShaderProgram.new ⟨0⟩)
      ⟨failingDriver, []⟩).2.1 (by decide)⟩

/-- C8: rebuilding after `release()` goes as a build on a new instance goes.
From any state `s` (the state after a failed link included), `release()` keeps
`errorLog`; then, when the driver answers the rebuild as it answers the build of
a newly constructed instance, the three steps `addVertexShader`,
`addFragmentShader`, `link` return the same values, make the same calls
(`t1`, `t2`, `t3`) and leave the same handles (`p1`, `p2`, `p3`) in both; the
instances differ in `errorLog` only: a step that returns `true` keeps the log it
found, so the old diagnostic stays until a step returns `false`, and that step
writes the same text in both. -/
theorem rebuild_after_release (s : OpenGLShaderProgram) (w w2 : World)
    (vertexCode fragmentCode : String)
    (hsame : SameAnswers (s.release w).2 w2) :
    (s.release w).1.errorLog = s.errorLog
    ∧ (s.release w).1.programID = 0
    ∧ ∃ (t1 t2 t3 : List GLCall) (b1 b2 b3 : Bool) (p1 p2 p3 : GLuint) (e1 e2 e3 : String),
        buildSteps (OpenGLShaderProgram.new s.context) w2 vertexCode fragmentCode
          = [(b1, ⟨s.context, p1, e1⟩, ⟨w2.driver, w2.calls ++ t1⟩),
             (b2, ⟨s.context, p2, e2⟩, ⟨w2.driver, w2.calls ++ t1 ++ t2⟩),
             (b3, ⟨s.context, p3, e3⟩, ⟨w2.driver, w2.calls ++ t1 ++ t2 ++ t3⟩)]
        ∧ buildSteps (s.release w).1 (s.release w).2 vertexCode fragmentCode
          = [(b1, ⟨s.context, p1, if b1 then s.errorLog else e1⟩,
                ⟨w.driver, (s.release w).2.calls ++ t1⟩),
             (b2, ⟨s.context, p2, if b2 then (if b1 then s.errorLog else e1) else e2⟩,
                ⟨w.driver, (s.release w).2.calls ++ t1 ++ t2⟩),
             (b3, ⟨s.context, p3,
                  if b3 then (if b2 then (if b1 then s.errorLog else e1) else e2) else e3⟩,
                ⟨w.driver, (s.release w).2.calls ++ t1 ++ t2 ++ t3⟩)] := by
  have hrel : (s.release w).1 = ⟨s.context, 0, s.errorLog⟩ ∧ (s.release w).2.driver = w.driver := by
    rcases s with ⟨c, p, e⟩
    by_cases hp : p = 0 <;> simp [release, glDeleteProgram, World.emit, hp]
  generalize s.release w = r at hsame hrel ⊢
  rcases r with ⟨s0, w0⟩
  obtain ⟨rfl, hdrv⟩ := hrel
  simp only at hsame hdrv ⊢
  refine ⟨trivial, trivial, ?_⟩
  obtain ⟨t1, b1, p1, e1, hb1, ha1, -⟩ :=
    addShader_sim ⟨s.context, 0, s.errorLog⟩ ⟨s.context, 0, ""⟩ w0 w2
      vertexCode .GL_VERTEX_SHADER rfl hsame
  obtain ⟨t2, b2, p2, e2, hb2, ha2, -⟩ :=
    addShader_sim ⟨s.context, p1, if b1 then s.errorLog else e1⟩ ⟨s.context, p1, e1⟩
      ⟨w0.driver, w0.calls ++ t1⟩ ⟨w2.driver, w2.calls ++ t1⟩
      fragmentCode .GL_FRAGMENT_SHADER rfl (hsame.append t1)
  obtain ⟨t3, b3, p3, e3, hb3, ha3, -⟩ :=
    link_sim ⟨s.context, p2, if b2 then (if b1 then s.errorLog else e1) else e2⟩
      ⟨s.context, p2, e2⟩
      ⟨w0.driver, w0.calls ++ t1 ++ t2⟩ ⟨w2.driver, w2.calls ++ t1 ++ t2⟩ rfl
      (by simpa using (hsame.append t1).append t2)
  refine ⟨t1, t2, t3, b1, b2, b3, p1, p2, p3, e1, e2, e3, ?_, ?_⟩
  · simp only [buildSteps, addVertexShader, addFragmentShader, new, hb1, hb2, hb3]
  · simp only [buildSteps, addVertexShader, addFragmentShader, ha1, ha2, ha3]
    simp only [hdrv]

/-- Witness for C8: the state after the failed link of `failedBuild`, rebuilt
against the driver that answers from then on as `unlinkableDriver` does. -/
theorem rebuild_after_release_witness :
    failedBuild.1 = (true, true, false)
    ∧ failedBuild.2.1.errorLog = "link failed"
    ∧ SameAnswers (failedBuild.2.1.release failedBuild.2.2).2
        (failedBuild.2.1.release failedBuild.2.2).2.restart
    ∧ (failedBuild.2.1.release failedBuild.2.2).1.errorLog = failedBuild.2.1.errorLog :=
  ⟨by decide, by decide, SameAnswers.restart _,
   (rebuild_after_release failedBuild.2.1 failedBuild.2.2
      (failedBuild.2.1.release failedBuild.2.2).2.restart
      "void main() \x7b\x7d" "void main() \x7b\x7d" (SameAnswers.restart _)).1⟩

/-- Counterexample for C9: `silentDriver` reports compile status `0` and an empty
info log; `addShader` returns `false` and the error log read afterwards is empty. -/
theorem silent_driver_leaves_errorLog_empty :
    compileStatuses (((OpenGLShaderProgram.new ⟨0⟩).addShader ⟨silentDriver, []⟩ "void main( \x7b"
        .GL_VERTEX_SHADER).2.2.since ⟨silentDriver, []⟩) = [0]
    ∧ ((OpenGLShaderProgram.new ⟨0⟩).addShader ⟨silentDriver, []⟩ "void main( \x7b"
        .GL_VERTEX_SHADER).1 = false
    ∧ ((OpenGLShaderProgram.new ⟨0⟩).addShader ⟨silentDriver, []⟩ "void main( \x7b"
        .GL_VERTEX_SHADER).2.1.errorLog = "" := by
  decide

/-- C9, amended: when the driver reports compile status `0`, `addShader` returns
`false` and the error log read afterwards is the first `infoLogLength`
characters of the info log the driver returned; it is non-empty exactly when the
reported length is positive and the log is not empty. -/
theorem addShader_error_log (self : OpenGLShaderProgram) (w : World) (code : String)
    (type : GLenum)
    (hfail : compileStatuses ((self.addShader w code type).2.2.since w) = [0]) :
    (self.addShader w code type).1 = false
    ∧ ∃ (shaderID : GLuint) (infoLogLength : Nat) (infoLog : List Char),
        ((self.addShader w code type).2.2.since w).getLast?
          = some (.glGetShaderInfoLog shaderID sizeof_infoLog infoLogLength infoLog)
        ∧ (self.addShader w code type).2.1.errorLog = String.mk (infoLog.take infoLogLength)
        ∧ ((self.addShader w code type).2.1.errorLog ≠ "" ↔ 0 < infoLogLength ∧ infoLog ≠ []) := by
  rcases addShader_cases self w code type with ⟨sid, len, log, h⟩ | ⟨sid, st, g, p, hst, hg, h⟩
  · rw [h]
    refine ⟨rfl, sid, len, log, by simp [World.since], rfl, ?_⟩
    cases len <;> cases log <;> simp [String.ext_iff]
  · exfalso
    rw [h] at hfail
    rcases hg with ⟨_, rfl⟩ | ⟨_, _, rfl⟩ <;>
      simp [World.since, compileStatuses, GLCall.compileStatus] at hfail <;>
      exact hst hfail

/-- Witness for C9, amended: a shader rejected by `failingDriver`. -/
theorem addShader_error_log_witness :
    compileStatuses (((OpenGLShaderProgram.new ⟨0⟩).addShader ⟨failingDriver, []⟩ "void main( \x7b"
        .GL_VERTEX_SHADER).2.2.since ⟨failingDriver, []⟩) = [0]
    ∧ ((OpenGLShaderProgram.new ⟨0⟩).addShader ⟨failingDriver, []⟩ "void main( \x7b"
        .GL_VERTEX_SHADER).1 = false :=
  ⟨by decide,
   (addShader_error_log (OpenGLShaderProgram.new ⟨0⟩) ⟨failingDriver, []⟩ "void main( \x7b"
      .GL_VERTEX_SHADER (by decide)).1⟩

/-- C10: `getLanguageVersion()` asks the driver for the version string with
one `glGetString (GL_SHADING_LANGUAGE_VERSION)` call, keeps exactly the
characters of `"1234567890."` (the kept text is a subsequence of the string,
holds only such characters, and holds each of them as often as the string does)
and returns the decimal value of the kept text, `0` when that text is empty or
unparsable.  For `"OpenGL GLSL 4.50 core"` the kept text is `"4.50"` and the
result is `4.5`; for the empty string the result is `0`. -/
theorem getLanguageVersion_filters_and_parses (w : World) (version : String)
    (hversion : w.driver.getString w.calls .GL_SHADING_LANGUAGE_VERSION = version) :
    (getLanguageVersion w).2 = w.emit (.glGetString .GL_SHADING_LANGUAGE_VERSION version)
    ∧ (String_retainCharacters version "1234567890.").toList.Sublist version.toList
    ∧ (∀ ch, ch ∈ (String_retainCharacters version "1234567890.").toList
        ↔ ch ∈ version.toList ∧ ch ∈ "1234567890.".toList)
    ∧ (∀ ch, ch ∈ "1234567890.".toList →
        (String_retainCharacters version "1234567890.").toList.count ch
          = version.toList.count ch)
    ∧ (∀ q, parseDecimal (String_retainCharacters version "1234567890.").toList = some q →
        (getLanguageVersion w).1 = q)
    ∧ (parseDecimal (String_retainCharacters version "1234567890.").toList = none →
        (getLanguageVersion w).1 = 0)
    ∧ (String_retainCharacters version "1234567890." = "" → (getLanguageVersion w).1 = 0)
    ∧ (version = "OpenGL GLSL 4.50 core" →
        String_retainCharacters version "1234567890." = "4.50"
        ∧ (getLanguageVersion w).1 = 4.5)
    ∧ (version = "" → (getLanguageVersion w).1 = 0) := by
  have hval : (getLanguageVersion w).1
      = (parseDecimal (String_retainCharacters version "1234567890.").toList).getD 0 := by
    simp only [getLanguageVersion, glGetString, hversion, String_getDoubleValue]
  refine ⟨?_, ?_, ?_, ?_, ?_, ?_, ?_, ?_, ?_⟩
  · simp only [getLanguageVersion, glGetString, hversion]
  · rw [String_retainCharacters_toList]
    exact List.filter_sublist _
  · intro ch
    rw [String_retainCharacters_toList, List.mem_filter, decide_eq_true_eq]
  · intro ch hch
    rw [String_retainCharacters_toList, List.count_filter]
    exact decide_eq_true hch
  · intro q hq
    rw [hval, hq]
    rfl
  · intro hq
    rw [hval, hq]
    rfl
  · intro h
    rw [hval, h]
    simp [parseDecimal]
  · intro h
    have hf : String_retainCharacters "OpenGL GLSL 4.50 core" "1234567890." = "4.50" := by
      decide
    refine ⟨by rw [h, hf], ?_⟩
    rw [hval, h, hf]
    simp [parseDecimal, readDigits]
    norm_num
  · intro h
    have hf : String_retainCharacters "" "1234567890." = "" := by decide
    rw [hval, h, hf]
    simp [parseDecimal]

/-- Witness for C10: `okDriver` reports `"OpenGL GLSL 4.50 core"`; the kept text
is `"4.50"` and the result is `4.5`. -/
theorem getLanguageVersion_filters_and_parses_witness :
    okDriver.getString [] .GL_SHADING_LANGUAGE_VERSION = "OpenGL GLSL 4.50 core"
    ∧ String_retainCharacters "OpenGL GLSL 4.50 core" "1234567890." = "4.50"
    ∧ (getLanguageVersion ⟨okDriver, []⟩).1 = 4.5 :=
  ⟨rfl,
   (getLanguageVersion_filters_and_parses ⟨okDriver, []⟩ "OpenGL GLSL 4.50 core" rfl).2.2.2.2.2.2.2.1
     rfl⟩

end juce
